import Mathlib

/-!
Shallow embedding of the game-loop core of the CSSE2010 Tetris project:
`score.c` (cleared-rows counter) and the `play_game` loop of `project.c`
(input arbitration, ANSI escape decoding, joystick debounce, pause handling
and the gravity-drop timer).

Modelling conventions:
* Machine integers are `Nat`; the millisecond clock is assumed not to wrap
  within a session (spec section 3), so `uint32_t` additions of clock values
  are plain `Nat` additions.  The one place where C integer conversion
  genuinely matters - adding the signed value `600 - 30 * cleared_rows` to the
  `uint32_t` `last_drop_time` - is modelled exactly, with arithmetic mod 2^32
  (`drop_deadline`).
* One loop iteration reads the clock as a single snapshot `ticks`.
* The board/piece collaborator (`game.c`, not under `src/`) is abstracted by
  the boolean contracts of spec section 6 (`attempt_drop_one_row`,
  `fix_block_and_spawn_next`); moves and rotations are dispatched as commands
  and their board effect is out of scope, exactly as in the spec.
* `IterOut` additionally records which command branch fired, whether the
  timer branch attempted a drop, how many drop attempts / fix calls were
  made, and whether a pending serial byte was consumed.  These fields are
  pure instrumentation of the control flow of `play_game`.
-/

namespace Tetris

/-! ### score.c -/

/-- Embeds `increment_cleared_rows` (score.c): `cleared_rows` is incremented
only while strictly below 99. -/
def increment_cleared_rows (cleared_rows : Nat) : Nat :=
  if cleared_rows < 99 then cleared_rows + 1 else cleared_rows

/-- The counter after `n` calls of `increment_cleared_rows`, starting from the
value 0 set by `init_cleared_rows` (score.c). -/
def cleared_after : Nat → Nat
  | 0 => 0
  | n + 1 => increment_cleared_rows (cleared_after n)

/-! ### External board collaborator -/

/-- Modelled from the spec: the board/piece collaborator (`game.c`, which is
not under `src/`) is visible to the loop only through the boolean contracts of
spec section 6.  `drops_left` is the number of times
`attempt_drop_block_one_row` will still succeed for the current piece,
`spawn_ok` is the value `fix_block_to_board_and_add_new_block` will return,
and `spawn_drops` is the drop capacity of the piece it spawns. -/
structure Board where
  drops_left : Nat
  spawn_ok : Bool
  spawn_drops : Nat
deriving DecidableEq

/-- Modelled from the spec: `attempt_drop_one_row` "returns whether the action
was legal against current board state; false means no effect". -/
def attempt_drop_block_one_row (b : Board) : Bool × Board :=
  if b.drops_left = 0 then (false, b)
  else (true, { b with drops_left := b.drops_left - 1 })

/-- Modelled from the spec: `fix_block_and_spawn_next` commits the piece and
spawns the next one; "returns false if no legal spawn position exists". -/
def fix_block_to_board_and_add_new_block (b : Board) : Bool × Board :=
  (b.spawn_ok, if b.spawn_ok then { b with drops_left := b.spawn_drops } else b)

/-- Fuel-driven unfolding of the hard-drop loop
`while(attempt_drop_block_one_row()) {}` of project.c. -/
def hard_drop_loop_aux : Nat → Board → Board
  | 0, b => b
  | n + 1, b =>
    let r := attempt_drop_block_one_row b
    if r.1 then hard_drop_loop_aux n r.2 else r.2

/-- The hard-drop loop of project.c: repeat the one-row drop until it fails.
`drops_left + 1` units of fuel suffice: the loop makes exactly
`drops_left` successful attempts followed by one failing attempt. -/
def hard_drop_loop (b : Board) : Board :=
  hard_drop_loop_aux (b.drops_left + 1) b

/-! ### Commands and state -/

/-- The logical command resolved by one loop iteration (spec section 3). -/
inductive Command where
  | moveLeft | moveRight | rotate | softDrop | hardDrop | togglePause | noCmd
deriving DecidableEq

/-- The mutable locals of `play_game` (project.c) together with the file-scope
joystick state (`joystick_time`, `stick_x`, `stick_y`).  `stick_x`/`stick_y`
are the latest ADC readings; `joystick_time` is the single debounce timestamp
shared by all four `is_*` functions, initialized to 0. -/
structure GameState where
  last_drop_time : Nat
  characters_into_escape_sequence : Nat
  paused : Bool
  paused_time : Nat
  joystick_time : Nat
  stick_x : Nat
  stick_y : Nat
deriving DecidableEq

/-! ### Joystick direction gates (project.c `is_left` .. `is_down`)

Each returns the fired flag together with the (possibly updated) shared
`joystick_time`. -/

/-- Embeds `is_left` (project.c): fires when `stick_x > 850` and
`ticks > joystick_time + 150`, and then sets `joystick_time` to `ticks`. -/
def is_left (stick_x joystick_time ticks : Nat) : Bool × Nat :=
  if 850 < stick_x ∧ joystick_time + 150 < ticks then (true, ticks)
  else (false, joystick_time)

/-- Embeds `is_right` (project.c): fires when `stick_x < 150` and
`ticks > joystick_time + 150`. -/
def is_right (stick_x joystick_time ticks : Nat) : Bool × Nat :=
  if stick_x < 150 ∧ joystick_time + 150 < ticks then (true, ticks)
  else (false, joystick_time)

/-- Embeds `is_up` (project.c): fires when `stick_y > 850` and
`ticks > joystick_time + 300`. -/
def is_up (stick_y joystick_time ticks : Nat) : Bool × Nat :=
  if 850 < stick_y ∧ joystick_time + 300 < ticks then (true, ticks)
  else (false, joystick_time)

/-- Embeds `is_down` (project.c): fires when `stick_y < 150` and
`ticks > joystick_time + 150`. -/
def is_down (stick_y joystick_time ticks : Nat) : Bool × Nat :=
  if stick_y < 150 ∧ joystick_time + 150 < ticks then (true, ticks)
  else (false, joystick_time)

/-! ### Serial / escape-sequence decoding (project.c lines 194-221) -/

/-- One step of the incremental escape-sequence decode applied to the byte
read by `fgetc`.  Result: `(serial_input, escape_sequence_char, new count)`
where `none` models the C value `-1`.  Byte codes: ESC = 27, left bracket
= 91. -/
def decode_serial (chars b : Nat) : Option Nat × Option Nat × Nat :=
  if chars = 0 ∧ b = 27 then (none, none, chars + 1)
  else if chars = 1 ∧ b = 91 then (none, none, chars + 1)
  else if chars = 2 then (none, some b, 0)
  else (some b, none, 0)

/-! ### The command-branch chain (project.c lines 224-264) -/

/-- Which `else if` branch of the input-processing chain fires. -/
inductive Branch where
  | left | right | rot | soft | hard | pauseToggle | nothing
deriving DecidableEq

/-- The command a branch dispatches. -/
def branch_command : Branch → Command
  | Branch.left => Command.moveLeft
  | Branch.right => Command.moveRight
  | Branch.rot => Command.rotate
  | Branch.soft => Command.softDrop
  | Branch.hard => Command.hardDrop
  | Branch.pauseToggle => Command.togglePause
  | Branch.nothing => Command.noCmd

/-- The `if`/`else if` chain of project.c selecting the branch, including the
C short-circuit evaluation order: `is_left()` etc. are only evaluated when the
button/escape disjuncts before them are false, their side effect on the shared
`joystick_time` persists even when `!paused` then blocks the branch, and the
chain continues with the updated timestamp.  Byte codes: D = 68, C = 67,
A = 65, B = 66, space = 32, p = 112, P = 80.  Returns the selected branch and
the final `joystick_time`. -/
def select_branch (button serial_input esc : Option Nat) (paused : Bool)
    (sx sy jt ticks : Nat) : Branch × Nat :=
  let r1 := if button = some 3 ∨ esc = some 68 then (true, jt) else is_left sx jt ticks
  if r1.1 && !paused then (Branch.left, r1.2) else
  let r2 := if button = some 0 ∨ esc = some 67 then (true, r1.2) else is_right sx r1.2 ticks
  if r2.1 && !paused then (Branch.right, r2.2) else
  let r3 := if button = some 2 ∨ esc = some 65 then (true, r2.2) else is_up sy r2.2 ticks
  if r3.1 && !paused then (Branch.rot, r3.2) else
  let r4 := if esc = some 66 then (true, r3.2) else is_down sy r3.2 ticks
  if r4.1 && !paused then (Branch.soft, r4.2) else
  if decide (button = some 1 ∨ serial_input = some 32) && !paused then (Branch.hard, r4.2) else
  if serial_input = some 112 ∨ serial_input = some 80 then (Branch.pauseToggle, r4.2)
  else (Branch.nothing, r4.2)

/-! ### Iteration outcome -/

/-- Observables of one iteration of the `while(1)` loop of `play_game`. -/
structure IterOut where
  st : GameState
  board : Board
  cmd : Command
  timer_drop : Bool
  manual_drop : Bool
  manual_advanced_last : Bool
  game_over : Bool
  serial_consumed : Bool
  drop_attempts : Nat
  fix_calls : Nat
deriving DecidableEq

/-- The body of the selected branch (project.c lines 224-264).  The soft-drop
branch updates `last_drop_time` to the current ticks unless it breaks with
game over; the hard-drop branch drains the piece, fixes exactly once and does
not touch `last_drop_time`; the pause branch toggles `paused`, logging
`paused_time` on pause and shifting `last_drop_time` forward by the paused
duration on unpause. -/
def apply_branch (br : Branch) (st : GameState) (bd : Board) (ticks : Nat) :
    IterOut :=
  match br with
  | Branch.left =>
    { st := st
      board := bd
      cmd := Command.moveLeft
      timer_drop := false
      manual_drop := false
      manual_advanced_last := false
      game_over := false
      serial_consumed := false
      drop_attempts := 0
      fix_calls := 0 }
  | Branch.right =>
    { st := st
      board := bd
      cmd := Command.moveRight
      timer_drop := false
      manual_drop := false
      manual_advanced_last := false
      game_over := false
      serial_consumed := false
      drop_attempts := 0
      fix_calls := 0 }
  | Branch.rot =>
    { st := st
      board := bd
      cmd := Command.rotate
      timer_drop := false
      manual_drop := false
      manual_advanced_last := false
      game_over := false
      serial_consumed := false
      drop_attempts := 0
      fix_calls := 0 }
  | Branch.soft =>
    let r := attempt_drop_block_one_row bd
    if r.1 then
      { st := { st with last_drop_time := ticks }
        board := r.2
        cmd := Command.softDrop
        timer_drop := false
        manual_drop := true
        manual_advanced_last := true
        game_over := false
        serial_consumed := false
        drop_attempts := 1
        fix_calls := 0 }
    else
      let f := fix_block_to_board_and_add_new_block r.2
      if f.1 then
        { st := { st with last_drop_time := ticks }
          board := f.2
          cmd := Command.softDrop
          timer_drop := false
          manual_drop := true
          manual_advanced_last := true
          game_over := false
          serial_consumed := false
          drop_attempts := 1
          fix_calls := 1 }
      else
        { st := st
          board := f.2
          cmd := Command.softDrop
          timer_drop := false
          manual_drop := true
          manual_advanced_last := false
          game_over := true
          serial_consumed := false
          drop_attempts := 1
          fix_calls := 1 }
  | Branch.hard =>
    let n := bd.drops_left
    let b1 := hard_drop_loop bd
    let f := fix_block_to_board_and_add_new_block b1
    { st := st
      board := f.2
      cmd := Command.hardDrop
      timer_drop := false
      manual_drop := true
      manual_advanced_last := false
      game_over := !f.1
      serial_consumed := false
      drop_attempts := n + 1
      fix_calls := 1 }
  | Branch.pauseToggle =>
    if st.paused then
      { st := { st with
                paused := false
                last_drop_time := st.last_drop_time + (ticks - st.paused_time) }
        board := bd
        cmd := Command.togglePause
        timer_drop := false
        manual_drop := false
        manual_advanced_last := false
        game_over := false
        serial_consumed := false
        drop_attempts := 0
        fix_calls := 0 }
    else
      { st := { st with
                paused := true
                paused_time := ticks }
        board := bd
        cmd := Command.togglePause
        timer_drop := false
        manual_drop := false
        manual_advanced_last := false
        game_over := false
        serial_consumed := false
        drop_attempts := 0
        fix_calls := 0 }
  | Branch.nothing =>
    { st := st
      board := bd
      cmd := Command.noCmd
      timer_drop := false
      manual_drop := false
      manual_advanced_last := false
      game_over := false
      serial_consumed := false
      drop_attempts := 0
      fix_calls := 0 }

/-! ### The gravity-drop timer (project.c lines 268-279) -/

/-- The deadline `last_drop_time + (600 - (get_cleared_rows() * 30))` exactly
as C computes it: the parenthesised interval is evaluated in signed `int`
arithmetic (so it reaches 0 at 20 cleared rows and goes negative beyond) and
is then converted to `uint32_t` when added to `last_drop_time`, i.e. the sum
is taken mod 2^32. -/
def drop_deadline (last cleared : Nat) : Nat :=
  (((last : Int) + (600 - 30 * (cleared : Int))) % (2 ^ 32 : Int)).toNat

/-- The timer comparison `get_clock_ticks() >= last_drop_time + (600 - ...)`
of project.c, a comparison of two `uint32_t` values. -/
def drop_due (ticks last cleared : Nat) : Bool :=
  decide (drop_deadline last cleared ≤ ticks % 2 ^ 32)

/-- The timer-driven drop block at the end of each iteration: when due and not
paused, attempt one drop; on failure fix-and-spawn, breaking with game over if
the spawn fails; `last_drop_time` is set to the current ticks unless the loop
breaks.  A `break` in an earlier branch (game over) skips this block. -/
def timer_step (o : IterOut) (ticks cleared : Nat) : IterOut :=
  if o.game_over then o
  else if drop_due ticks o.st.last_drop_time cleared && !o.st.paused then
    let r := attempt_drop_block_one_row o.board
    if r.1 then
      { o with
        board := r.2
        st := { o.st with last_drop_time := ticks }
        timer_drop := true
        drop_attempts := o.drop_attempts + 1 }
    else
      let f := fix_block_to_board_and_add_new_block r.2
      if f.1 then
        { o with
          board := f.2
          st := { o.st with last_drop_time := ticks }
          timer_drop := true
          drop_attempts := o.drop_attempts + 1
          fix_calls := o.fix_calls + 1 }
      else
        { o with
          board := f.2
          timer_drop := true
          drop_attempts := o.drop_attempts + 1
          fix_calls := o.fix_calls + 1
          game_over := true }
  else o

/-! ### One iteration of the `while(1)` loop of `play_game` -/

/-- One full iteration of the `play_game` loop: poll the button queue; only
when no button event is pending read a pending serial byte and run it through
the escape decoder; select and run the command branch (with the joystick side
effects of the condition chain); finally run the gravity-timer block.
`button` is the result of `button_pushed()` (`none` for -1), `serial` the
pending serial byte if any, `cleared` the value of `get_cleared_rows()`, and
`ticks` the clock snapshot for this iteration. -/
def play_game_iter (st : GameState) (bd : Board) (button serial : Option Nat)
    (cleared ticks : Nat) : IterOut :=
  let d :=
    match button, serial with
    | none, some b => decode_serial st.characters_into_escape_sequence b
    | _, _ => (none, none, st.characters_into_escape_sequence)
  let sc := button.isNone && serial.isSome
  let r := select_branch button d.1 d.2.1 st.paused st.stick_x st.stick_y
    st.joystick_time ticks
  let o := apply_branch r.1
    { st with characters_into_escape_sequence := d.2.2, joystick_time := r.2 }
    bd ticks
  timer_step { o with serial_consumed := sc } ticks cleared

/-! ### Helper lemmas -/

theorem is_left_not (sx jt t : Nat) (h : sx ≤ 850) : is_left sx jt t = (false, jt) := by
  unfold is_left
  rw [if_neg]
  omega

theorem is_left_fires (sx jt t : Nat) (h1 : 850 < sx) (h2 : jt + 150 < t) :
    is_left sx jt t = (true, t) := by
  unfold is_left
  rw [if_pos]
  exact ⟨h1, h2⟩

theorem is_right_not (sx jt t : Nat) (h : 150 ≤ sx) : is_right sx jt t = (false, jt) := by
  unfold is_right
  rw [if_neg]
  omega

theorem is_right_fires (sx jt t : Nat) (h1 : sx < 150) (h2 : jt + 150 < t) :
    is_right sx jt t = (true, t) := by
  unfold is_right
  rw [if_pos]
  exact ⟨h1, h2⟩

theorem is_up_not (sy jt t : Nat) (h : sy ≤ 850) : is_up sy jt t = (false, jt) := by
  unfold is_up
  rw [if_neg]
  omega

theorem is_up_fires (sy jt t : Nat) (h1 : 850 < sy) (h2 : jt + 300 < t) :
    is_up sy jt t = (true, t) := by
  unfold is_up
  rw [if_pos]
  exact ⟨h1, h2⟩

theorem is_down_not (sy jt t : Nat) (h : 150 ≤ sy) : is_down sy jt t = (false, jt) := by
  unfold is_down
  rw [if_neg]
  omega

theorem is_down_fires (sy jt t : Nat) (h1 : sy < 150) (h2 : jt + 150 < t) :
    is_down sy jt t = (true, t) := by
  unfold is_down
  rw [if_pos]
  exact ⟨h1, h2⟩

theorem timer_step_cmd (o : IterOut) (t c : Nat) : (timer_step o t c).cmd = o.cmd := by
  unfold timer_step
  simp only []
  split_ifs <;> rfl

theorem timer_step_manual (o : IterOut) (t c : Nat) :
    (timer_step o t c).manual_drop = o.manual_drop := by
  unfold timer_step
  simp only []
  split_ifs <;> rfl

theorem timer_step_advanced (o : IterOut) (t c : Nat) :
    (timer_step o t c).manual_advanced_last = o.manual_advanced_last := by
  unfold timer_step
  simp only []
  split_ifs <;> rfl

theorem timer_step_sc (o : IterOut) (t c : Nat) :
    (timer_step o t c).serial_consumed = o.serial_consumed := by
  unfold timer_step
  simp only []
  split_ifs <;> rfl

theorem timer_step_chars (o : IterOut) (t c : Nat) :
    (timer_step o t c).st.characters_into_escape_sequence =
      o.st.characters_into_escape_sequence := by
  unfold timer_step
  simp only []
  split_ifs <;> rfl

theorem timer_step_paused (o : IterOut) (t c : Nat) :
    (timer_step o t c).st.paused = o.st.paused := by
  unfold timer_step
  simp only []
  split_ifs <;> rfl

theorem timer_step_jt (o : IterOut) (t c : Nat) :
    (timer_step o t c).st.joystick_time = o.st.joystick_time := by
  unfold timer_step
  simp only []
  split_ifs <;> rfl

theorem timer_step_skip (o : IterOut) (t c : Nat)
    (h : (drop_due t o.st.last_drop_time c && !o.st.paused) = false) :
    timer_step o t c = o := by
  unfold timer_step
  simp [h]

theorem timer_step_gameover (o : IterOut) (t c : Nat) (h : o.game_over = true) :
    timer_step o t c = o := by
  unfold timer_step
  simp [h]

theorem select_branch_idle (paused : Bool) (sx sy jt t : Nat)
    (hx1 : 150 ≤ sx) (hx2 : sx ≤ 850) (hy1 : 150 ≤ sy) (hy2 : sy ≤ 850) :
    select_branch none none none paused sx sy jt t = (Branch.nothing, jt) := by
  unfold select_branch
  simp [is_left_not sx jt t hx2, is_right_not sx jt t hx1,
        is_up_not sy jt t hy2, is_down_not sy jt t hy1]

theorem select_branch_pause_byte (paused : Bool) (sx sy jt t : Nat)
    (hx1 : 150 ≤ sx) (hx2 : sx ≤ 850) (hy1 : 150 ≤ sy) (hy2 : sy ≤ 850) :
    select_branch none (some 112) none paused sx sy jt t = (Branch.pauseToggle, jt) := by
  unfold select_branch
  simp [is_left_not sx jt t hx2, is_right_not sx jt t hx1,
        is_up_not sy jt t hy2, is_down_not sy jt t hy1]

theorem select_branch_paused_fst (button serial_input esc : Option Nat) (sx sy jt t : Nat) :
    (select_branch button serial_input esc true sx sy jt t).1 =
      if serial_input = some 112 ∨ serial_input = some 80 then Branch.pauseToggle
      else Branch.nothing := by
  unfold select_branch
  simp only [Bool.not_true, Bool.and_false, Bool.false_eq_true, if_false]
  split_ifs <;> rfl

theorem select_branch_serial_plain (bb : Nat) (sx sy jt t : Nat)
    (hx1 : 150 ≤ sx) (hx2 : sx ≤ 850) (hy1 : 150 ≤ sy) (hy2 : sy ≤ 850) :
    select_branch none (some bb) none false sx sy jt t =
      ((if bb = 32 then Branch.hard
        else if bb = 112 ∨ bb = 80 then Branch.pauseToggle
        else Branch.nothing), jt) := by
  unfold select_branch
  by_cases hs : bb = 32 <;> by_cases hp : bb = 112 <;> by_cases hP : bb = 80 <;>
    simp [hs, hp, hP, is_left_not sx jt t hx2, is_right_not sx jt t hx1,
          is_up_not sy jt t hy2, is_down_not sy jt t hy1]

theorem select_branch_button (btn : Nat) (s : Option Nat) (sx sy jt t : Nat)
    (hx1 : 150 ≤ sx) (hx2 : sx ≤ 850) (hy1 : 150 ≤ sy) (hy2 : sy ≤ 850) :
    select_branch (some btn) s none false sx sy jt t =
      ((if btn = 3 then Branch.left
        else if btn = 0 then Branch.right
        else if btn = 2 then Branch.rot
        else if btn = 1 ∨ s = some 32 then Branch.hard
        else if s = some 112 ∨ s = some 80 then Branch.pauseToggle
        else Branch.nothing), jt) := by
  unfold select_branch
  by_cases h3 : btn = 3 <;> by_cases h0 : btn = 0 <;> by_cases h2 : btn = 2 <;>
  by_cases h1 : btn = 1 <;>
    (simp [h3, h0, h2, h1, is_left_not sx jt t hx2, is_right_not sx jt t hx1,
           is_up_not sy jt t hy2, is_down_not sy jt t hy1]
     try (split_ifs <;> rfl))

theorem select_branch_tilt_left (sx sy jt t : Nat) (h1 : 850 < sx) (h2 : jt + 150 < t) :
    select_branch none none none false sx sy jt t = (Branch.left, t) := by
  unfold select_branch
  simp [is_left_fires sx jt t h1 h2]

theorem select_branch_tilt_right (sx sy jt t : Nat) (h1 : sx < 150) (h2 : jt + 150 < t) :
    select_branch none none none false sx sy jt t = (Branch.right, t) := by
  unfold select_branch
  simp [is_left_not sx jt t (by omega), is_right_fires sx jt t h1 h2]

theorem select_branch_tilt_up (sx sy jt t : Nat) (hx1 : 150 ≤ sx) (hx2 : sx ≤ 850)
    (h1 : 850 < sy) (h2 : jt + 300 < t) :
    select_branch none none none false sx sy jt t = (Branch.rot, t) := by
  unfold select_branch
  simp [is_left_not sx jt t hx2, is_right_not sx jt t hx1, is_up_fires sy jt t h1 h2]

theorem select_branch_tilt_down (sx sy jt t : Nat) (hx1 : 150 ≤ sx) (hx2 : sx ≤ 850)
    (h1 : sy < 150) (h2 : jt + 150 < t) :
    select_branch none none none false sx sy jt t = (Branch.soft, t) := by
  unfold select_branch
  simp [is_left_not sx jt t hx2, is_right_not sx jt t hx1,
        is_up_not sy jt t (by omega), is_down_fires sy jt t h1 h2]

theorem select_branch_tilt_paused (sx sy jt t : Nat) (h1 : 850 < sx) (h2 : jt + 150 < t)
    (hy1 : 150 ≤ sy) (hy2 : sy ≤ 850) :
    select_branch none none none true sx sy jt t = (Branch.nothing, t) := by
  unfold select_branch
  simp [is_left_fires sx jt t h1 h2, is_right_not sx t t (by omega),
        is_up_not sy t t hy2, is_down_not sy t t hy1]

theorem drop_due_iff (t last c : Nat) (hc : c < 20) (hl : last + 600 < 2 ^ 32)
    (ht : t < 2 ^ 32) :
    drop_due t last c = true ↔ last + (600 - 30 * c) ≤ t := by
  unfold drop_due drop_deadline
  rw [Int.emod_eq_of_lt (by omega) (by omega)]
  simp only [decide_eq_true_eq]
  rw [Nat.mod_eq_of_lt ht]
  omega

theorem drop_due_self (t c : Nat) (hc : c < 20) (hw : t + 600 < 2 ^ 32) :
    drop_due t t c = false := by
  unfold drop_due drop_deadline
  rw [Int.emod_eq_of_lt (by omega) (by omega)]
  simp only [decide_eq_false_iff_not]
  omega

theorem hard_drop_loop_aux_drain : ∀ (n : Nat) (so : Bool) (sp : Nat),
    hard_drop_loop_aux (n + 1) (Board.mk n so sp) = Board.mk 0 so sp
  | 0, _, _ => rfl
  | n + 1, so, sp => by
    have h : hard_drop_loop_aux (n + 1 + 1) (Board.mk (n + 1) so sp) =
        hard_drop_loop_aux (n + 1) (Board.mk n so sp) := rfl
    rw [h]
    exact hard_drop_loop_aux_drain n so sp

theorem hard_drop_loop_eq (b : Board) : hard_drop_loop b = { b with drops_left := 0 } := by
  cases b with
  | mk d so sp => exact hard_drop_loop_aux_drain d so sp

/-! ### Claim C9 -/

/-- C9: starting from the initialized counter, any sequence of
`increment_cleared_rows` calls keeps the cleared-rows counter at most 99 and
never decreases it; each call adds exactly 1 while the counter is strictly
below 99 and is a no-op once it has reached 99. -/
theorem C9_cleared_rows_saturating (n : Nat) :
    cleared_after n ≤ 99 ∧ cleared_after n ≤ cleared_after (n + 1) ∧
    (cleared_after n < 99 → cleared_after (n + 1) = cleared_after n + 1) ∧
    (99 ≤ cleared_after n → cleared_after (n + 1) = cleared_after n) := by
  have hle : ∀ m, cleared_after m ≤ 99 := by
    intro m
    induction m with
    | zero => simp [cleared_after]
    | succ m ih =>
      have hstep : cleared_after (m + 1) = increment_cleared_rows (cleared_after m) := rfl
      rw [hstep]
      unfold increment_cleared_rows
      split_ifs <;> omega
  have h99 := hle n
  have hstep : cleared_after (n + 1) = increment_cleared_rows (cleared_after n) := rfl
  rw [hstep]
  unfold increment_cleared_rows
  split_ifs <;> (refine ⟨h99, ?_, ?_, ?_⟩ <;> omega)

set_option maxRecDepth 4000 in
/-- Witness for C9 at a concrete input: after 100 calls the counter sits at
the cap and a further call leaves it unchanged. -/
theorem C9_witness : cleared_after 100 ≤ 99 ∧ cleared_after 101 = cleared_after 100 :=
  ⟨(C9_cleared_rows_saturating 100).1,
   (C9_cleared_rows_saturating 100).2.2.2 (by decide)⟩

/-! ### Claim C1 -/

/-- C1: while `cleared_rows < 20` the timer-drop test of project.c is exactly
`ticks >= last_drop_time + (600 - 30 * cleared_rows)` (600 ms at 0 rows,
300 ms at 10 rows); but the code has no clamp: at `cleared_rows = 20` the
interval is 0 (a drop is due at the very tick of the previous drop), and at
`cleared_rows = 21` with `last_drop_time = 0` the deadline wraps mod 2^32 to
the huge value `2^32 - 30`, so a drop is not even due at tick 1000. -/
theorem C1_drop_interval :
    (∀ t last c, c < 20 → last + 600 < 2 ^ 32 → t < 2 ^ 32 →
      (drop_due t last c = true ↔ last + (600 - 30 * c) ≤ t)) ∧
    drop_deadline 0 0 = 600 ∧ drop_deadline 0 10 = 300 ∧
    drop_due 0 0 20 = true ∧
    drop_deadline 0 21 = 2 ^ 32 - 30 ∧
    drop_due 1000 0 21 = false := by
  refine ⟨?_, by decide, by decide, by decide, by decide, by decide⟩
  intro t last c hc hl ht
  exact drop_due_iff t last c hc hl ht

/-- Witness for C1 at a concrete input: with no cleared rows and
`last_drop_time = 0`, a drop is due exactly from tick 600 on. -/
theorem C1_witness : drop_due 600 0 0 = true ↔ 0 + (600 - 30 * 0) ≤ 600 :=
  C1_drop_interval.1 600 0 0 (by decide) (by decide) (by decide)

/-! ### Claim C2 -/

/-- C2 counterexample: with `stick_x = 900 > 850` (and the debounce window
open, no other input, not paused) the iteration's command is `MoveLeft`
(project.c routes `is_left`, which tests `stick_x > 850`, into
`attempt_move(MOVE_LEFT)`), not `MoveRight` as the claim states. -/
theorem C2_counterexample :
    (play_game_iter ⟨0, 0, false, 0, 0, 900, 500⟩ ⟨5, true, 5⟩ none none 0 200).cmd =
      Command.moveLeft ∧ Command.moveLeft ≠ Command.moveRight := by
  decide

/-! ### Claim C3 -/

/-- C3 counterexample: the claim's own pinned example fails on the code.
With `horizontal = 900` and a fresh joystick state (`joystick_time = 0`, its
initial value), sampling at tick 0 does not fire any command, because
`is_left` requires `ticks > joystick_time + 150`, i.e. tick 151 at the
earliest. -/
theorem C3_counterexample :
    (play_game_iter ⟨1000, 0, false, 0, 0, 900, 500⟩ ⟨5, true, 5⟩ none none 0 0).cmd =
      Command.noCmd := by
  decide

/-- C3 amended: all four joystick directions share the single debounce
timestamp `joystick_time` (initial value 0); a direction fires iff its
threshold holds and the current tick strictly exceeds the shared timestamp
plus its window (150 for left/right/down, 300 for up), and firing sets the
shared timestamp to the current tick, suppressing every direction's window.
With `horizontal = 900`: tick 0 suppressed, tick 100 suppressed, tick 150
still suppressed (strict comparison), tick 151 fires and sets the shared
timestamp to 151; a subsequent down-tilt (`vertical = 100`) is then
suppressed at tick 301 and fires at tick 302. -/
theorem C3_shared_debounce :
    (play_game_iter ⟨10000, 0, false, 0, 0, 900, 500⟩ ⟨5, true, 5⟩ none none 0 0).cmd =
      Command.noCmd ∧
    (play_game_iter ⟨10000, 0, false, 0, 0, 900, 500⟩ ⟨5, true, 5⟩ none none 0 100).cmd =
      Command.noCmd ∧
    (play_game_iter ⟨10000, 0, false, 0, 0, 900, 500⟩ ⟨5, true, 5⟩ none none 0 150).cmd =
      Command.noCmd ∧
    (play_game_iter ⟨10000, 0, false, 0, 0, 900, 500⟩ ⟨5, true, 5⟩ none none 0 151).cmd =
      Command.moveLeft ∧
    (play_game_iter ⟨10000, 0, false, 0, 0, 900, 500⟩ ⟨5, true, 5⟩ none none 0 151).st.joystick_time = 151 ∧
    (play_game_iter ⟨10000, 0, false, 0, 151, 500, 100⟩ ⟨5, true, 5⟩ none none 0 301).cmd =
      Command.noCmd ∧
    (play_game_iter ⟨10000, 0, false, 0, 151, 500, 100⟩ ⟨5, true, 5⟩ none none 0 302).cmd =
      Command.softDrop := by
  decide

/-! ### Claim C6 -/

/-- C6 counterexample: a pending rotate-button event (button 2) together with
a left joystick tilt (`stick_x = 900`, window open): the joystick branch is
not skipped, so the iteration's command is `MoveLeft`, not the button's
`Rotate`; the pending serial byte is indeed left unconsumed. -/
theorem C6_counterexample :
    (play_game_iter ⟨0, 0, false, 0, 0, 900, 500⟩ ⟨5, true, 5⟩ (some 2) (some 32) 0 200).cmd =
      Command.moveLeft ∧
    (play_game_iter ⟨0, 0, false, 0, 0, 900, 500⟩ ⟨5, true, 5⟩ (some 2) (some 32) 0 200).serial_consumed =
      false ∧
    Command.moveLeft ≠ Command.rotate := by
  decide

/-! ### Claim C7 -/

/-- C7 counterexample: hard drop (button 1) in an iteration where the timer
drop is also due: the manual (hard) drop happens, the timer drop happens in
the same iteration, and the manual drop did not advance `last_drop_time` —
refuting the claim that both can co-occur only if the manual drop already
advanced `last_drop_time`. -/
theorem C7_counterexample :
    (play_game_iter ⟨0, 0, false, 0, 0, 500, 500⟩ ⟨3, true, 5⟩ (some 1) none 0 700).manual_drop =
      true ∧
    (play_game_iter ⟨0, 0, false, 0, 0, 500, 500⟩ ⟨3, true, 5⟩ (some 1) none 0 700).timer_drop =
      true ∧
    (play_game_iter ⟨0, 0, false, 0, 0, 500, 500⟩ ⟨3, true, 5⟩ (some 1) none 0 700).manual_advanced_last =
      false := by
  decide

/-! ### Claim C10 -/

/-- C10 counterexample: while paused, with both a button event and a serial
byte pending in the same iteration, the serial byte is not read (button
precedence applies while paused too), contradicting the claim that pending
serial input is consumed each paused iteration. -/
theorem C10_counterexample :
    (play_game_iter ⟨0, 0, true, 0, 0, 500, 500⟩ ⟨5, true, 5⟩ (some 0) (some 32) 0 100).serial_consumed =
      false := by
  decide

/-- C2 amended: the joystick thresholds map to commands with the horizontal
directions swapped relative to the claim: `stick_x > 850` fires the code's
`is_left` and yields `MoveLeft`, `stick_x < 150` yields `MoveRight`;
`stick_y > 850` yields `Rotate` and `stick_y < 150` yields `SoftDrop` as
claimed — each subject to the shared debounce window (150 ticks, 300 for the
up direction), with no other input pending and the game not paused. -/
theorem C2_joystick_directions (L pt jt sx sy c t : Nat) (bd : Board) :
    (850 < sx → jt + 150 < t →
      (play_game_iter ⟨L, 0, false, pt, jt, sx, sy⟩ bd none none c t).cmd = Command.moveLeft) ∧
    (sx < 150 → jt + 150 < t →
      (play_game_iter ⟨L, 0, false, pt, jt, sx, sy⟩ bd none none c t).cmd = Command.moveRight) ∧
    (150 ≤ sx → sx ≤ 850 → 850 < sy → jt + 300 < t →
      (play_game_iter ⟨L, 0, false, pt, jt, sx, sy⟩ bd none none c t).cmd = Command.rotate) ∧
    (150 ≤ sx → sx ≤ 850 → sy < 150 → jt + 150 < t →
      (play_game_iter ⟨L, 0, false, pt, jt, sx, sy⟩ bd none none c t).cmd = Command.softDrop) := by
  refine ⟨?_, ?_, ?_, ?_⟩
  · intro h1 h2
    unfold play_game_iter
    simp [timer_step_cmd, select_branch_tilt_left sx sy jt t h1 h2, apply_branch]
  · intro h1 h2
    unfold play_game_iter
    simp [timer_step_cmd, select_branch_tilt_right sx sy jt t h1 h2, apply_branch]
  · intro hx1 hx2 h1 h2
    unfold play_game_iter
    simp [timer_step_cmd, select_branch_tilt_up sx sy jt t hx1 hx2 h1 h2, apply_branch]
  · intro hx1 hx2 h1 h2
    unfold play_game_iter
    simp [timer_step_cmd, select_branch_tilt_down sx sy jt t hx1 hx2 h1 h2, apply_branch]
    split_ifs <;> rfl

/-- Witness for C2 at concrete inputs: a left tilt of 900 at tick 200 with a
fresh debounce timestamp yields `MoveLeft`. -/
theorem C2_witness :
    (play_game_iter ⟨0, 0, false, 0, 0, 900, 500⟩ ⟨5, true, 5⟩ none none 0 200).cmd =
      Command.moveLeft :=
  (C2_joystick_directions 0 0 0 900 500 0 200 ⟨5, true, 5⟩).1 (by decide) (by decide)

theorem paused_nothing_eq (st1 : GameState) (bd : Board) (sc : Bool) (cleared ticks : Nat)
    (hp1 : st1.paused = true) :
    timer_step { apply_branch Branch.nothing st1 bd ticks with serial_consumed := sc }
        ticks cleared =
      { st := st1
        board := bd
        cmd := Command.noCmd
        timer_drop := false
        manual_drop := false
        manual_advanced_last := false
        game_over := false
        serial_consumed := sc
        drop_attempts := 0
        fix_calls := 0 } := by
  rw [timer_step_skip]
  · simp [apply_branch]
  · simp [apply_branch, hp1]

theorem paused_toggle_facts (st1 : GameState) (bd : Board) (sc : Bool) (cleared ticks : Nat)
    (hp1 : st1.paused = true) :
    (timer_step { apply_branch Branch.pauseToggle st1 bd ticks with serial_consumed := sc }
        ticks cleared).cmd = Command.togglePause ∧
    (timer_step { apply_branch Branch.pauseToggle st1 bd ticks with serial_consumed := sc }
        ticks cleared).manual_drop = false ∧
    (timer_step { apply_branch Branch.pauseToggle st1 bd ticks with serial_consumed := sc }
        ticks cleared).st.paused = false := by
  refine ⟨?_, ?_, ?_⟩
  · rw [timer_step_cmd]
    simp [apply_branch, hp1]
  · rw [timer_step_manual]
    simp [apply_branch, hp1]
  · rw [timer_step_paused]
    simp [apply_branch, hp1]

/-! ### Claim C8 -/

/-- C8: while paused, no movement/rotation/soft-drop/hard-drop command is
dispatched and no manual drop occurs; when the iteration resolves no command
(`noCmd`), the board is untouched, the timer performs no drop attempt and
`last_drop_time` is unchanged; the only command ever honored while paused is
the pause toggle (serial p/P after decode), and honoring it resumes the game.
(The C code does evaluate the timer comparison before `&& !paused`; that
comparison has no observable effect, which is what this theorem captures.) -/
theorem C8_paused_suppression (st : GameState) (bd : Board) (button serial : Option Nat)
    (cleared ticks : Nat) (hp : st.paused = true) :
    ((play_game_iter st bd button serial cleared ticks).cmd = Command.togglePause ∨
     (play_game_iter st bd button serial cleared ticks).cmd = Command.noCmd) ∧
    (play_game_iter st bd button serial cleared ticks).manual_drop = false ∧
    ((play_game_iter st bd button serial cleared ticks).cmd = Command.noCmd →
      (play_game_iter st bd button serial cleared ticks).board = bd ∧
      (play_game_iter st bd button serial cleared ticks).timer_drop = false ∧
      (play_game_iter st bd button serial cleared ticks).drop_attempts = 0 ∧
      (play_game_iter st bd button serial cleared ticks).fix_calls = 0 ∧
      (play_game_iter st bd button serial cleared ticks).game_over = false ∧
      (play_game_iter st bd button serial cleared ticks).st.paused = true ∧
      (play_game_iter st bd button serial cleared ticks).st.last_drop_time = st.last_drop_time) ∧
    ((play_game_iter st bd button serial cleared ticks).cmd = Command.togglePause →
      (play_game_iter st bd button serial cleared ticks).st.paused = false) := by
  cases button with
  | some k =>
    have heq0 : play_game_iter st bd (some k) serial cleared ticks =
        timer_step
          { apply_branch
              (select_branch (some k) none none st.paused st.stick_x st.stick_y
                st.joystick_time ticks).1
              { st with
                characters_into_escape_sequence := st.characters_into_escape_sequence
                joystick_time := (select_branch (some k) none none st.paused st.stick_x
                  st.stick_y st.joystick_time ticks).2 }
              bd ticks with
            serial_consumed := false } ticks cleared := rfl
    rw [hp] at heq0
    rw [select_branch_paused_fst] at heq0
    simp only [reduceCtorEq, or_self, if_false] at heq0
    rw [paused_nothing_eq _ _ _ _ _ (by simp [hp])] at heq0
    rw [heq0]
    simp [hp]
  | none =>
    cases serial with
    | none =>
      have heq0 : play_game_iter st bd none none cleared ticks =
          timer_step
            { apply_branch
                (select_branch none none none st.paused st.stick_x st.stick_y
                  st.joystick_time ticks).1
                { st with
                  characters_into_escape_sequence := st.characters_into_escape_sequence
                  joystick_time := (select_branch none none none st.paused st.stick_x
                    st.stick_y st.joystick_time ticks).2 }
                bd ticks with
              serial_consumed := false } ticks cleared := rfl
      rw [hp] at heq0
      rw [select_branch_paused_fst] at heq0
      simp only [reduceCtorEq, or_self, if_false] at heq0
      rw [paused_nothing_eq _ _ _ _ _ (by simp [hp])] at heq0
      rw [heq0]
      simp [hp]
    | some b =>
      have heq0 : play_game_iter st bd none (some b) cleared ticks =
          timer_step
            { apply_branch
                (select_branch none (decode_serial st.characters_into_escape_sequence b).1
                  (decode_serial st.characters_into_escape_sequence b).2.1 st.paused
                  st.stick_x st.stick_y st.joystick_time ticks).1
                { st with
                  characters_into_escape_sequence :=
                    (decode_serial st.characters_into_escape_sequence b).2.2
                  joystick_time := (select_branch none
                    (decode_serial st.characters_into_escape_sequence b).1
                    (decode_serial st.characters_into_escape_sequence b).2.1 st.paused
                    st.stick_x st.stick_y st.joystick_time ticks).2 }
                bd ticks with
              serial_consumed := true } ticks cleared := rfl
      rw [hp] at heq0
      rw [select_branch_paused_fst] at heq0
      by_cases hq : (decode_serial st.characters_into_escape_sequence b).1 = some 112 ∨
          (decode_serial st.characters_into_escape_sequence b).1 = some 80
      · rw [if_pos hq] at heq0
        have hcmd : (play_game_iter st bd none (some b) cleared ticks).cmd =
            Command.togglePause := by
          rw [heq0]
          exact (paused_toggle_facts _ _ _ _ _ (by simp)).1
        have hman : (play_game_iter st bd none (some b) cleared ticks).manual_drop = false := by
          rw [heq0]
          exact (paused_toggle_facts _ _ _ _ _ (by simp)).2.1
        have hpd : (play_game_iter st bd none (some b) cleared ticks).st.paused = false := by
          rw [heq0]
          exact (paused_toggle_facts _ _ _ _ _ (by simp)).2.2
        refine ⟨Or.inl hcmd, hman, ?_, fun _ => hpd⟩
        intro h
        rw [hcmd] at h
        exact absurd h (by decide)
      · rw [if_neg hq] at heq0
        rw [paused_nothing_eq _ _ _ _ _ (by simp [hp])] at heq0
        rw [heq0]
        simp [hp]

/-- Witness for C8 at a concrete paused state: the iteration resolves either
the pause toggle or no command. -/
theorem C8_witness :
    (play_game_iter ⟨0, 0, true, 0, 0, 500, 500⟩ ⟨5, true, 5⟩ none none 0 100).cmd =
      Command.togglePause ∨
    (play_game_iter ⟨0, 0, true, 0, 0, 500, 500⟩ ⟨5, true, 5⟩ none none 0 100).cmd =
      Command.noCmd :=
  (C8_paused_suppression ⟨0, 0, true, 0, 0, 500, 500⟩ ⟨5, true, 5⟩ none none 0 100 rfl).1

/-! ### Claim C4 -/

theorem timer_step_fires (o : IterOut) (t c : Nat) (hg : o.game_over = false)
    (hpo : o.st.paused = false) (htd : o.timer_drop = false) :
    (timer_step o t c).timer_drop = drop_due t o.st.last_drop_time c := by
  unfold timer_step
  simp only []
  rw [hg, hpo]
  cases hd : drop_due t o.st.last_drop_time c with
  | true => simp only [hd, Bool.not_false, Bool.and_true, if_true, Bool.false_eq_true, if_false]
            split_ifs <;> rfl
  | false => simp [hd, htd]

/-- C4: pausing at tick `T1` (serial p, running, no other input) records
`paused_time = T1` and leaves `last_drop_time` and the board untouched, with
no timer drop in that iteration; unpausing at tick `T2` resumes the game and
advances `last_drop_time` by exactly `T2 - T1`, so afterwards a timer drop is
due at tick `t` iff `t >= last_drop_time_before_pause + interval + (T2 - T1)`
(`interval = 600 - 30 * cleared_rows`, here with `cleared_rows < 20`); if a
timer drop does fire in the unpausing iteration itself, then
`T2 >= last_drop_time_before_pause + interval + (T2 - T1)` already held, i.e.
the drop is never earlier than the claimed bound and never indefinitely
delayed. -/
theorem C4_pause_accounting (L pt jt sx sy c T1 T2 : Nat) (bd : Board)
    (hx1 : 150 ≤ sx) (hx2 : sx ≤ 850) (hy1 : 150 ≤ sy) (hy2 : sy ≤ 850)
    (hT : T1 ≤ T2) (hc : c < 20) (hW : L + (T2 - T1) + 600 < 2 ^ 32) (hT2 : T2 < 2 ^ 32) :
    (play_game_iter ⟨L, 0, false, pt, jt, sx, sy⟩ bd none (some 112) c T1).st =
      ⟨L, 0, true, T1, jt, sx, sy⟩ ∧
    (play_game_iter ⟨L, 0, false, pt, jt, sx, sy⟩ bd none (some 112) c T1).board = bd ∧
    (play_game_iter ⟨L, 0, false, pt, jt, sx, sy⟩ bd none (some 112) c T1).timer_drop = false ∧
    (play_game_iter ⟨L, 0, true, T1, jt, sx, sy⟩ bd none (some 112) c T2).st.paused = false ∧
    ((play_game_iter ⟨L, 0, true, T1, jt, sx, sy⟩ bd none (some 112) c T2).timer_drop = false →
      (play_game_iter ⟨L, 0, true, T1, jt, sx, sy⟩ bd none (some 112) c T2).st.last_drop_time =
        L + (T2 - T1) ∧
      ∀ t, t < 2 ^ 32 →
        (drop_due t (L + (T2 - T1)) c = true ↔ L + (600 - 30 * c) + (T2 - T1) ≤ t)) ∧
    ((play_game_iter ⟨L, 0, true, T1, jt, sx, sy⟩ bd none (some 112) c T2).timer_drop = true →
      L + (600 - 30 * c) + (T2 - T1) ≤ T2) := by
  have heq1 : play_game_iter ⟨L, 0, false, pt, jt, sx, sy⟩ bd none (some 112) c T1 =
      { st := ⟨L, 0, true, T1, jt, sx, sy⟩
        board := bd
        cmd := Command.togglePause
        timer_drop := false
        manual_drop := false
        manual_advanced_last := false
        game_over := false
        serial_consumed := true
        drop_attempts := 0
        fix_calls := 0 } := by
    unfold play_game_iter
    simp [decode_serial, select_branch_pause_byte false sx sy jt T1 hx1 hx2 hy1 hy2,
          apply_branch, timer_step_skip]
  have heq2 : play_game_iter ⟨L, 0, true, T1, jt, sx, sy⟩ bd none (some 112) c T2 =
      timer_step
        { st := ⟨L + (T2 - T1), 0, false, T1, jt, sx, sy⟩
          board := bd
          cmd := Command.togglePause
          timer_drop := false
          manual_drop := false
          manual_advanced_last := false
          game_over := false
          serial_consumed := true
          drop_attempts := 0
          fix_calls := 0 } T2 c := by
    unfold play_game_iter
    simp [decode_serial, select_branch_pause_byte true sx sy jt T2 hx1 hx2 hy1 hy2,
          apply_branch]
  have hfires : (play_game_iter ⟨L, 0, true, T1, jt, sx, sy⟩ bd none (some 112) c T2).timer_drop =
      drop_due T2 (L + (T2 - T1)) c := by
    rw [heq2]
    exact timer_step_fires _ T2 c rfl rfl rfl
  refine ⟨by rw [heq1], by rw [heq1], by rw [heq1], ?_, ?_, ?_⟩
  · rw [heq2, timer_step_paused]
  · intro h5
    rw [hfires] at h5
    have hskip : play_game_iter ⟨L, 0, true, T1, jt, sx, sy⟩ bd none (some 112) c T2 =
        { st := ⟨L + (T2 - T1), 0, false, T1, jt, sx, sy⟩
          board := bd
          cmd := Command.togglePause
          timer_drop := false
          manual_drop := false
          manual_advanced_last := false
          game_over := false
          serial_consumed := true
          drop_attempts := 0
          fix_calls := 0 } := by
      rw [heq2, timer_step_skip]
      simp [h5]
    refine ⟨by rw [hskip], ?_⟩
    intro t ht
    rw [drop_due_iff t (L + (T2 - T1)) c hc hW ht]
    omega
  · intro h6
    rw [hfires] at h6
    rw [drop_due_iff T2 (L + (T2 - T1)) c hc hW hT2] at h6
    omega

/-- Witness for C4 at concrete inputs: pausing at tick 10 records the pause
state without touching `last_drop_time`. -/
theorem C4_witness :
    (play_game_iter ⟨0, 0, false, 0, 0, 500, 500⟩ ⟨5, true, 5⟩ none (some 112) 0 10).st =
      ⟨0, 0, true, 10, 0, 500, 500⟩ :=
  (C4_pause_accounting 0 0 0 500 500 0 10 20 ⟨5, true, 5⟩ (by decide) (by decide)
    (by decide) (by decide) (by decide) (by decide) (by decide) (by decide)).1

/-! ### Claim C5 -/

/-- C5: escape decoding across iterations of the loop.  Feeding ESC (27),
left bracket (91), D (68) from the idle decode state yields the commands
`noCmd`, `noCmd`, `MoveLeft` - exactly one `MoveLeft` - and returns the state
to Idle (count 0) with the board untouched by the first two steps.  Feeding
ESC, bracket, X (88) yields no command and returns the state to Idle.  And
from the state that has seen only ESC (count 1), any byte `b` other than the
bracket aborts the sequence (count back to 0) and is re-evaluated as ordinary
input in the same iteration: space (32) maps to `HardDrop`, p/P (112/80) to
`TogglePause`, anything else to no command. -/
theorem C5_escape_decoding (bd : Board) (b : Nat) (hb : b ≠ 91) :
    ((play_game_iter ⟨10000, 0, false, 0, 0, 500, 500⟩ ⟨5, true, 5⟩ none (some 27) 0 1).cmd =
       Command.noCmd ∧
     (play_game_iter ⟨10000, 0, false, 0, 0, 500, 500⟩ ⟨5, true, 5⟩ none (some 27) 0 1).st =
       ⟨10000, 1, false, 0, 0, 500, 500⟩ ∧
     (play_game_iter ⟨10000, 0, false, 0, 0, 500, 500⟩ ⟨5, true, 5⟩ none (some 27) 0 1).board =
       ⟨5, true, 5⟩ ∧
     (play_game_iter ⟨10000, 1, false, 0, 0, 500, 500⟩ ⟨5, true, 5⟩ none (some 91) 0 2).cmd =
       Command.noCmd ∧
     (play_game_iter ⟨10000, 1, false, 0, 0, 500, 500⟩ ⟨5, true, 5⟩ none (some 91) 0 2).st =
       ⟨10000, 2, false, 0, 0, 500, 500⟩ ∧
     (play_game_iter ⟨10000, 1, false, 0, 0, 500, 500⟩ ⟨5, true, 5⟩ none (some 91) 0 2).board =
       ⟨5, true, 5⟩ ∧
     (play_game_iter ⟨10000, 2, false, 0, 0, 500, 500⟩ ⟨5, true, 5⟩ none (some 68) 0 3).cmd =
       Command.moveLeft ∧
     (play_game_iter ⟨10000, 2, false, 0, 0, 500, 500⟩ ⟨5, true, 5⟩ none (some 68) 0 3).st =
       ⟨10000, 0, false, 0, 0, 500, 500⟩) ∧
    ((play_game_iter ⟨10000, 2, false, 0, 0, 500, 500⟩ ⟨5, true, 5⟩ none (some 88) 0 3).cmd =
       Command.noCmd ∧
     (play_game_iter ⟨10000, 2, false, 0, 0, 500, 500⟩ ⟨5, true, 5⟩ none (some 88) 0 3).st =
       ⟨10000, 0, false, 0, 0, 500, 500⟩) ∧
    ((play_game_iter ⟨10000, 1, false, 0, 0, 500, 500⟩ bd none (some b) 0 1).st.characters_into_escape_sequence =
       0 ∧
     (play_game_iter ⟨10000, 1, false, 0, 0, 500, 500⟩ bd none (some b) 0 1).cmd =
       (if b = 32 then Command.hardDrop
        else if b = 112 ∨ b = 80 then Command.togglePause
        else Command.noCmd)) := by
  refine ⟨by decide, by decide, ?_, ?_⟩
  · have hdec : decode_serial 1 b = (some b, none, 0) := by
      unfold decode_serial
      rw [if_neg (by omega), if_neg (by omega), if_neg (by omega)]
    unfold play_game_iter
    simp [hdec, select_branch_serial_plain b 500 500 0 1 (by omega) (by omega) (by omega) (by omega),
          timer_step_chars, apply_branch]
    split_ifs <;> simp [apply_branch]
  · have hdec : decode_serial 1 b = (some b, none, 0) := by
      unfold decode_serial
      rw [if_neg (by omega), if_neg (by omega), if_neg (by omega)]
    unfold play_game_iter
    rw [timer_step_cmd]
    simp [hdec, select_branch_serial_plain b 500 500 0 1 (by omega) (by omega) (by omega) (by omega)]
    split_ifs <;> simp [apply_branch]

/-- Witness for C5 at a concrete input: after ESC, the byte A (65) aborts the
sequence, resets the decode state to Idle, and its ordinary evaluation yields
no command. -/
theorem C5_witness :
    (play_game_iter ⟨10000, 1, false, 0, 0, 500, 500⟩ ⟨5, true, 5⟩ none (some 65) 0 1).st.characters_into_escape_sequence =
      0 ∧
    (play_game_iter ⟨10000, 1, false, 0, 0, 500, 500⟩ ⟨5, true, 5⟩ none (some 65) 0 1).cmd =
      (if 65 = 32 then Command.hardDrop
       else if 65 = 112 ∨ 65 = 80 then Command.togglePause
       else Command.noCmd) :=
  (C5_escape_decoding ⟨5, true, 5⟩ 65 (by decide)).2.2

/-! ### Claim C6 -/

/-- C6 amended: when a button event is pending the serial branch is skipped
and the pending serial byte stays queued (not consumed, decode state
untouched); but the joystick checks are not skipped - they sit inside the
same condition chain, so with the joystick neutral the iteration's command is
the button's (3 = left, 0 = right, 2 = rotate, 1 = hard drop), while a firing
joystick direction in an earlier branch can preempt the button's command (see
the counterexample). -/
theorem C6_button_source_precedence (L pt jt sx sy c t btn : Nat) (s : Option Nat) (bd : Board)
    (hx1 : 150 ≤ sx) (hx2 : sx ≤ 850) (hy1 : 150 ≤ sy) (hy2 : sy ≤ 850) :
    (play_game_iter ⟨L, 0, false, pt, jt, sx, sy⟩ bd (some btn) s c t).serial_consumed = false ∧
    (play_game_iter ⟨L, 0, false, pt, jt, sx, sy⟩ bd (some btn) s c t).st.characters_into_escape_sequence = 0 ∧
    (play_game_iter ⟨L, 0, false, pt, jt, sx, sy⟩ bd (some btn) s c t).cmd =
      (if btn = 3 then Command.moveLeft
       else if btn = 0 then Command.moveRight
       else if btn = 2 then Command.rotate
       else if btn = 1 then Command.hardDrop
       else Command.noCmd) := by
  refine ⟨?_, ?_, ?_⟩
  · unfold play_game_iter
    rw [timer_step_sc]
    simp
  · unfold play_game_iter
    rw [timer_step_chars]
    simp [select_branch_button btn none sx sy jt t hx1 hx2 hy1 hy2]
    split_ifs <;> simp [apply_branch]
  · unfold play_game_iter
    rw [timer_step_cmd]
    simp [select_branch_button btn none sx sy jt t hx1 hx2 hy1 hy2]
    split_ifs <;> simp [apply_branch]

/-- Witness for C6 at concrete inputs: a pending rotate button (2) with a
pending serial byte and neutral joystick yields the button's command and
leaves the serial byte queued. -/
theorem C6_witness :
    (play_game_iter ⟨0, 0, false, 0, 0, 500, 500⟩ ⟨5, true, 5⟩ (some 2) (some 32) 0 100).serial_consumed =
      false ∧
    (play_game_iter ⟨0, 0, false, 0, 0, 500, 500⟩ ⟨5, true, 5⟩ (some 2) (some 32) 0 100).st.characters_into_escape_sequence =
      0 ∧
    (play_game_iter ⟨0, 0, false, 0, 0, 500, 500⟩ ⟨5, true, 5⟩ (some 2) (some 32) 0 100).cmd =
      (if 2 = 3 then Command.moveLeft
       else if 2 = 0 then Command.moveRight
       else if 2 = 2 then Command.rotate
       else if 2 = 1 then Command.hardDrop
       else Command.noCmd) :=
  C6_button_source_precedence 0 0 0 500 500 0 100 2 (some 32) ⟨5, true, 5⟩
    (by decide) (by decide) (by decide) (by decide)

/-! ### Claim C7 -/

theorem manual_timer_core (br : Branch) (st1 : GameState) (bd : Board) (sc : Bool)
    (cleared ticks : Nat) (hc : cleared < 20) (hw : ticks + 600 < 2 ^ 32)
    (hm : (timer_step { apply_branch br st1 bd ticks with serial_consumed := sc }
        ticks cleared).manual_drop = true)
    (ht : (timer_step { apply_branch br st1 bd ticks with serial_consumed := sc }
        ticks cleared).timer_drop = true) :
    (timer_step { apply_branch br st1 bd ticks with serial_consumed := sc }
        ticks cleared).manual_advanced_last = false := by
  cases br
  case left => rw [timer_step_manual] at hm; simp [apply_branch] at hm
  case right => rw [timer_step_manual] at hm; simp [apply_branch] at hm
  case rot => rw [timer_step_manual] at hm; simp [apply_branch] at hm
  case nothing => rw [timer_step_manual] at hm; simp [apply_branch] at hm
  case pauseToggle =>
    rw [timer_step_manual] at hm
    simp only [apply_branch] at hm
    split_ifs at hm
  case hard =>
    rw [timer_step_advanced]
    simp [apply_branch]
  case soft =>
    by_cases ha : (attempt_drop_block_one_row bd).1 = true
    · have hskip : timer_step { apply_branch Branch.soft st1 bd ticks with
          serial_consumed := sc } ticks cleared =
          { apply_branch Branch.soft st1 bd ticks with serial_consumed := sc } := by
        apply timer_step_skip
        simp [apply_branch, ha, drop_due_self ticks cleared hc hw]
      rw [hskip] at ht
      simp [apply_branch, ha] at ht
    · by_cases hf : (fix_block_to_board_and_add_new_block (attempt_drop_block_one_row bd).2).1 = true
      · have hskip : timer_step { apply_branch Branch.soft st1 bd ticks with
            serial_consumed := sc } ticks cleared =
            { apply_branch Branch.soft st1 bd ticks with serial_consumed := sc } := by
          apply timer_step_skip
          simp [apply_branch, ha, hf, drop_due_self ticks cleared hc hw]
        rw [hskip] at ht
        simp [apply_branch, ha, hf] at ht
      · have hgo : timer_step { apply_branch Branch.soft st1 bd ticks with
            serial_consumed := sc } ticks cleared =
            { apply_branch Branch.soft st1 bd ticks with serial_consumed := sc } := by
          apply timer_step_gameover
          simp [apply_branch, ha, hf]
        rw [hgo] at ht
        simp [apply_branch, ha, hf] at ht

/-- C7 amended: a hard-drop command (here button 1, with the timer not due,
the joystick neutral and the game running) repeats the one-row drop until it
fails - `drops_left + 1` attempts - then performs the fix-and-spawn step
exactly once, ends the session iff the spawn reports no room, and does not
advance `last_drop_time`; and in full generality (any state and inputs, with
`cleared_rows < 20` and no clock wrap) a manual drop and a timer-driven drop
occur in the same iteration only if the manual drop did NOT advance
`last_drop_time` - the soft drop advances it, which prevents a same-iteration
timer drop, so co-occurrence happens precisely through the hard-drop path. -/
theorem C7_hard_drop (L pt jt sx sy c t : Nat) (bd : Board)
    (hx1 : 150 ≤ sx) (hx2 : sx ≤ 850) (hy1 : 150 ≤ sy) (hy2 : sy ≤ 850)
    (hnd : drop_due t L c = false) :
    ((play_game_iter ⟨L, 0, false, pt, jt, sx, sy⟩ bd (some 1) none c t).cmd =
       Command.hardDrop ∧
     (play_game_iter ⟨L, 0, false, pt, jt, sx, sy⟩ bd (some 1) none c t).manual_drop = true ∧
     (play_game_iter ⟨L, 0, false, pt, jt, sx, sy⟩ bd (some 1) none c t).manual_advanced_last = false ∧
     (play_game_iter ⟨L, 0, false, pt, jt, sx, sy⟩ bd (some 1) none c t).drop_attempts =
       bd.drops_left + 1 ∧
     (play_game_iter ⟨L, 0, false, pt, jt, sx, sy⟩ bd (some 1) none c t).fix_calls = 1 ∧
     (play_game_iter ⟨L, 0, false, pt, jt, sx, sy⟩ bd (some 1) none c t).game_over =
       (!bd.spawn_ok) ∧
     (play_game_iter ⟨L, 0, false, pt, jt, sx, sy⟩ bd (some 1) none c t).st.last_drop_time = L ∧
     (play_game_iter ⟨L, 0, false, pt, jt, sx, sy⟩ bd (some 1) none c t).timer_drop = false ∧
     (play_game_iter ⟨L, 0, false, pt, jt, sx, sy⟩ bd (some 1) none c t).board =
       (if bd.spawn_ok then { bd with drops_left := bd.spawn_drops }
        else { bd with drops_left := 0 })) ∧
    (∀ (st : GameState) (bd2 : Board) (button serial : Option Nat) (cleared ticks : Nat),
      cleared < 20 → ticks + 600 < 2 ^ 32 →
      (play_game_iter st bd2 button serial cleared ticks).manual_drop = true →
      (play_game_iter st bd2 button serial cleared ticks).timer_drop = true →
      (play_game_iter st bd2 button serial cleared ticks).manual_advanced_last = false) := by
  constructor
  · have heq : play_game_iter ⟨L, 0, false, pt, jt, sx, sy⟩ bd (some 1) none c t =
        { st := ⟨L, 0, false, pt, jt, sx, sy⟩
          board := (if bd.spawn_ok then { bd with drops_left := bd.spawn_drops }
            else { bd with drops_left := 0 })
          cmd := Command.hardDrop
          timer_drop := false
          manual_drop := true
          manual_advanced_last := false
          game_over := (!bd.spawn_ok)
          serial_consumed := false
          drop_attempts := bd.drops_left + 1
          fix_calls := 1 } := by
      unfold play_game_iter
      cases hso : bd.spawn_ok with
      | true =>
        rw [timer_step_skip]
        · simp [select_branch_button 1 none sx sy jt t hx1 hx2 hy1 hy2, apply_branch,
                hard_drop_loop_eq, fix_block_to_board_and_add_new_block, hso]
        · simp [select_branch_button 1 none sx sy jt t hx1 hx2 hy1 hy2, apply_branch,
                hard_drop_loop_eq, fix_block_to_board_and_add_new_block, hso, hnd]
      | false =>
        rw [timer_step_gameover]
        · simp [select_branch_button 1 none sx sy jt t hx1 hx2 hy1 hy2, apply_branch,
                hard_drop_loop_eq, fix_block_to_board_and_add_new_block, hso]
        · simp [select_branch_button 1 none sx sy jt t hx1 hx2 hy1 hy2, apply_branch,
                hard_drop_loop_eq, fix_block_to_board_and_add_new_block, hso]
    rw [heq]
    simp
  · intro st bd2 button serial cleared ticks hc hw hm ht
    exact manual_timer_core _ _ _ _ _ _ hc hw hm ht

/-- Witness for C7 at concrete inputs: a hard drop on a piece with three
drops left fixes once, spawns, and leaves `last_drop_time` unchanged. -/
theorem C7_witness :
    (play_game_iter ⟨0, 0, false, 0, 0, 500, 500⟩ ⟨3, true, 5⟩ (some 1) none 0 100).cmd =
      Command.hardDrop ∧
    (play_game_iter ⟨0, 0, false, 0, 0, 500, 500⟩ ⟨3, true, 5⟩ (some 1) none 0 100).manual_drop =
      true :=
  And.intro
    (C7_hard_drop 0 0 0 500 500 0 100 ⟨3, true, 5⟩ (by decide) (by decide) (by decide)
      (by decide) (by decide)).1.1
    (C7_hard_drop 0 0 0 500 500 0 100 ⟨3, true, 5⟩ (by decide) (by decide) (by decide)
      (by decide) (by decide)).1.2.1

theorem apply_branch_chars (br : Branch) (st : GameState) (bd : Board) (t : Nat) :
    (apply_branch br st bd t).st.characters_into_escape_sequence =
      st.characters_into_escape_sequence := by
  cases br <;> (simp only [apply_branch]; try split_ifs) <;> rfl

/-- C10 amended: while paused, input is consumed with the same precedence
rules as when running.  A pending serial byte is read - and still advances
the escape-decode state - exactly when no button event is pending; when a
button event is pending it is dequeued and discarded (the command is `noCmd`)
and the serial byte is NOT read, remaining queued; and a joystick tilt that
passes its threshold and window still updates the shared debounce timestamp
even though no command is dispatched.  (A byte still queued at resume - e.g.
behind a button event or behind the unpausing p - can therefore take effect
after resume, contrary to the original claim's final clause.) -/
theorem C10_paused_input_consumption :
    (∀ (st : GameState) (bd : Board) (b cleared ticks : Nat), st.paused = true →
      (play_game_iter st bd none (some b) cleared ticks).serial_consumed = true ∧
      (play_game_iter st bd none (some b) cleared ticks).st.characters_into_escape_sequence =
        (decode_serial st.characters_into_escape_sequence b).2.2) ∧
    (∀ (st : GameState) (bd : Board) (k : Nat) (s : Option Nat) (cleared ticks : Nat),
      st.paused = true →
      (play_game_iter st bd (some k) s cleared ticks).serial_consumed = false ∧
      (play_game_iter st bd (some k) s cleared ticks).cmd = Command.noCmd) ∧
    (∀ (L pt jt sx sy cleared ticks : Nat) (bd : Board),
      850 < sx → jt + 150 < ticks → 150 ≤ sy → sy ≤ 850 →
      (play_game_iter ⟨L, 0, true, pt, jt, sx, sy⟩ bd none none cleared ticks).st.joystick_time =
        ticks ∧
      (play_game_iter ⟨L, 0, true, pt, jt, sx, sy⟩ bd none none cleared ticks).cmd =
        Command.noCmd) := by
  refine ⟨?_, ?_, ?_⟩
  · intro st bd b cleared ticks hp
    constructor
    · unfold play_game_iter
      rw [timer_step_sc]
      rfl
    · unfold play_game_iter
      rw [timer_step_chars]
      simp [apply_branch_chars]
  · intro st bd k s cleared ticks hp
    have heq0 : play_game_iter st bd (some k) s cleared ticks =
        timer_step
          { apply_branch
              (select_branch (some k) none none st.paused st.stick_x st.stick_y
                st.joystick_time ticks).1
              { st with
                characters_into_escape_sequence := st.characters_into_escape_sequence
                joystick_time := (select_branch (some k) none none st.paused st.stick_x
                  st.stick_y st.joystick_time ticks).2 }
              bd ticks with
            serial_consumed := false } ticks cleared := rfl
    rw [hp] at heq0
    rw [select_branch_paused_fst] at heq0
    simp only [reduceCtorEq, or_self, if_false] at heq0
    rw [paused_nothing_eq _ _ _ _ _ (by simp [hp])] at heq0
    rw [heq0]
    exact ⟨rfl, rfl⟩
  · intro L pt jt sx sy cleared ticks bd h1 h2 hy1 hy2
    have heq : play_game_iter ⟨L, 0, true, pt, jt, sx, sy⟩ bd none none cleared ticks =
        { st := ⟨L, 0, true, pt, ticks, sx, sy⟩
          board := bd
          cmd := Command.noCmd
          timer_drop := false
          manual_drop := false
          manual_advanced_last := false
          game_over := false
          serial_consumed := false
          drop_attempts := 0
          fix_calls := 0 } := by
      unfold play_game_iter
      simp [select_branch_tilt_paused sx sy jt ticks h1 h2 hy1 hy2, apply_branch,
            timer_step_skip]
    rw [heq]
    exact ⟨rfl, rfl⟩

/-- Witness for C10 at concrete inputs: while paused with no button pending,
a pending ESC byte is consumed and advances the decode state. -/
theorem C10_witness :
    (play_game_iter ⟨0, 0, true, 0, 0, 500, 500⟩ ⟨5, true, 5⟩ none (some 27) 0 50).serial_consumed =
      true ∧
    (play_game_iter ⟨0, 0, true, 0, 0, 500, 500⟩ ⟨5, true, 5⟩ none (some 27) 0 50).st.characters_into_escape_sequence =
      (decode_serial (⟨0, 0, true, 0, 0, 500, 500⟩ : GameState).characters_into_escape_sequence 27).2.2 :=
  C10_paused_input_consumption.1 ⟨0, 0, true, 0, 0, 500, 500⟩ ⟨5, true, 5⟩ 27 0 50 rfl

end Tetris
